import Mathlib

/-
  Verification of the paralympics REST API (Flask + SQLAlchemy + Marshmallow).

  Shallow embedding of src/paralympics/routes.py.  The database session is
  modelled as an explicit application state (lists of rows); each HTTP handler
  becomes a Lean function from the state and the request data to a response
  (and the successor state for mutating handlers).  Wall-clock time is a Nat
  parameter (seconds); datetime.utcnow() + timedelta(minutes=5) is now + 300.
  Infrastructure-level SQLAlchemy failures (lost connection, failed commit)
  are injected through explicit Boolean/Option fault parameters at exactly the
  places where routes.py catches exc.SQLAlchemyError / Exception around a
  commit or lookup; deterministic ORM errors (NoResultFound on a missing row,
  InvalidRequestError on an unmapped filter_by keyword) are modelled directly.
-/

set_option autoImplicit false

namespace Paralympics

/-- A row of the Region table (models.py is not part of the sources; fields
follow the spec §3: natural 3-character NOC key plus free-text descriptive
fields, of which the test suite exercises notes). -/
structure Region where
  NOC : String
  region : String
  notes : String
deriving Repr, DecidableEq

/-- A row of the Event table (models.py is not part of the sources; spec §3:
surrogate numeric id plus descriptive attributes). -/
structure Event where
  id : Nat
  etype : String
  year : Nat
deriving Repr, DecidableEq

/-- A row of the User table: numeric id, unique email, stored password hash
(spec §3). -/
structure User where
  id : Nat
  email : String
  password_hash : String
deriving Repr, DecidableEq

/-- The JWT produced by jwt.encode in login: payload claims exp / iat / sub,
the out-of-band header user_id, and the signing key (signature verification is
modelled as comparing the signing key with the secret of the verifier). -/
structure Token where
  exp : Nat
  iat : Nat
  sub : Nat
  header_user_id : Nat
  key : String
deriving Repr, DecidableEq

/-- Serialized (opaque) form of a token, as returned to the client in the
201 login response body. -/
def Token.encode (t : Token) : String :=
  "eyJhbGciOiJIUzI1NiJ9." ++ toString t.sub ++ "." ++ toString t.iat ++ "."
    ++ toString t.exp ++ "." ++ toString t.header_user_id ++ "." ++ t.key

/-- JSON body of an HTTP response. -/
inductive Body where
  | empty
  | msg (m : String)
  | token (t : Token)
  | regionObj (r : Region)
  | eventObj (e : Event)
deriving Repr, DecidableEq

/-- An HTTP response: status code and JSON body. -/
structure Response where
  status : Nat
  body : Body
deriving Repr, DecidableEq

/-- The database, modelled as the lists of rows of the three tables. -/
structure AppState where
  regions : List Region
  events : List Event
  users : List User
deriving Repr, DecidableEq

/-- Modelled from the spec: the Password Verifier of §4.1 lives in models.py,
which is not among the sources.  Its contract is purely functional: a stored
hash is derived from the plaintext, and check_password reports whether the
offered plaintext re-hashes to the stored value (match iff same plaintext). -/
def pwHash (password : String) : String :=
  "pbkdf2:sha256$salt$" ++ password

/-- Modelled from the spec: User.check_password (models.py, not in sources)
compares the offered plaintext against the stored hash, returning a Bool. -/
def User.check_password (u : User) (password : String) : Bool :=
  pwHash password == u.password_hash

/-- Python truthiness of auth.get(field): None and the empty string are falsy,
so `not auth.get(field)` holds exactly when the field is absent or empty. -/
def truthy : Option String → Bool
  | none => false
  | some s => s != ""

/-- JSON body of a POST /login request; a field maps to none when absent
(or JSON null, which dict.get also returns as None). -/
structure LoginJson where
  email : Option String
  password : Option String
deriving Repr, DecidableEq

/-- db.select(User).filter_by(email=e) ... scalar_one_or_none(). -/
def userByEmail (s : AppState) (e : String) : Option User :=
  s.users.find? (fun u => u.email == e)

/-- The claim set signed at login (routes.py lines 280-293): exp = now + 5
minutes, iat = now, sub = user id, header user_id = user id, signed with the
app secret key. -/
def Token.issue (uid : Nat) (now : Nat) (secret : String) : Token :=
  { exp := now + 300, iat := now, sub := uid, header_user_id := uid, key := secret }

/-- POST /login (routes.py `login`): request body is None or a JSON object;
401 when the body is falsy or either field is falsy, 401 when no user has the
email, 403 on password mismatch, 201 with the signed token on success. -/
def login (s : AppState) (auth : Option LoginJson) (now : Nat) (secret : String) :
    Response :=
  match auth with
  | none => { status := 401, body := .msg "Missing email or password" }
  | some a =>
    if !truthy a.email || !truthy a.password then
      { status := 401, body := .msg "Missing email or password" }
    else
      match userByEmail s (a.email.getD "") with
      | none =>
        { status := 401,
          body := .msg "No account for that email address. Please register." }
      | some user =>
        if user.check_password (a.password.getD "") then
          { status := 201, body := .token (Token.issue user.id now secret) }
        else
          { status := 403, body := .msg "Incorrect password." }

/-- The Authorization header of a request: absent, present but not decodable
as a signed token, or carrying a token. -/
inductive AuthHeader where
  | missing
  | garbled (raw : String)
  | tok (t : Token)
deriving Repr, DecidableEq

/-- Modelled from the spec: token validity (§3, §4.5; the Token Validator
lives in paralympics/decorators.py, which is not among the sources):
validity = signature intact (signed with the server secret) AND current
time strictly before expiry. -/
def token_valid (t : Token) (secret : String) (now : Nat) : Bool :=
  t.key == secret && decide (now < t.exp)

/-- Modelled from the spec: the token_required decorator (§4.5;
paralympics/decorators.py is not among the sources): absent header rejects
401 "authentication token missing"; a header that does not verify (bad
signature, undecodable, or expired) rejects 401; otherwise the wrapped
handler runs. -/
def token_required (auth : AuthHeader) (secret : String) (now : Nat)
    (s : AppState) (handler : Unit → Response × AppState) : Response × AppState :=
  match auth with
  | .missing => ({ status := 401, body := .msg "Authentication token missing" }, s)
  | .garbled _ => ({ status := 401, body := .msg "Invalid or expired token" }, s)
  | .tok t =>
    if token_valid t secret now then handler ()
    else ({ status := 401, body := .msg "Invalid or expired token" }, s)

/-- db.select(Region).filter_by(NOC=code) ... scalar_one_or_none(). -/
def regionByNOC (s : AppState) (code : String) : Option Region :=
  s.regions.find? (fun r => r.NOC == code)

/-- GET /regions/(code) (routes.py `get_region`): scalar_one raises
NoResultFound when the code is unknown, which the handler turns into
abort(404, "Region not found"); otherwise the region is dumped with 200. -/
def get_region (s : AppState) (code : String) : Response :=
  match regionByNOC s code with
  | some r => { status := 200, body := .regionObj r }
  | none => { status := 404, body := .msg "Region not found" }

/-- DELETE /regions/(noc_code) (routes.py `delete_region`): NoResultFound on
a missing row is a SQLAlchemyError, so it lands in the same except branch as
a failed commit (injected as commitFault); both produce the 500 response with
the "not found" message.  On success the row is removed. -/
def delete_region (s : AppState) (code : String) (commitFault : Bool) :
    Response × AppState :=
  match regionByNOC s code with
  | none =>
    ({ status := 500, body := .msg ("Region " ++ code ++ " not found") }, s)
  | some _ =>
    if commitFault then
      ({ status := 500, body := .msg ("Region " ++ code ++ " not found") }, s)
    else
      ({ status := 200, body := .msg ("Region " ++ code ++ " deleted.") },
       { s with regions := s.regions.eraseP (fun r => r.NOC == code) })

/-- The PATCH /regions request body as the schema sees it: each patchable
descriptive field is present or absent (the NOC natural key is immutable,
spec §3, so the schema body carries no key change). -/
structure RegionPatch where
  region : Option String
  notes : Option String
deriving Repr, DecidableEq

/-- Outcome of request.get_json() + RegionSchema.load for a PATCH body:
either the body fails Marshmallow validation (including a missing body) or
it yields a set of patch fields. -/
inductive RegionBody where
  | malformed
  | valid (p : RegionPatch)
deriving Repr, DecidableEq

/-- Modelled from the spec: RegionSchema.load(json, instance=existing,
partial=True) (schemas.py is not among the sources; spec §4.6): merge only
the fields present in the request body into the existing record; with a null
instance there is no record to merge into, so a fresh object is built from
the fields of the body alone (unsupplied fields empty). -/
def region_schema_load (p : RegionPatch) (inst : Option Region) : Region :=
  match inst with
  | some r =>
    { NOC := r.NOC, region := p.region.getD r.region, notes := p.notes.getD r.notes }
  | none =>
    { NOC := "", region := p.region.getD "", notes := p.notes.getD "" }

/-- db.session.add(row); db.session.commit() for a region: the row replaces
any row sharing its primary key, otherwise it is inserted. -/
def upsertRegion (rs : List Region) (r : Region) : List Region :=
  if rs.any (fun x => x.NOC == r.NOC) then
    rs.map (fun x => if x.NOC == r.NOC then r else x)
  else rs ++ [r]

/-- The body of PATCH /regions/(noc_code) (routes.py `update_region`, inside
the token_required gate): a SQLAlchemyError during the lookup (lookupFault)
gives 404; scalar_one_or_none yields none for a missing row WITHOUT an error,
and the handler proceeds to the schema load with that null instance; a
ValidationError gives 500; a failed commit (commitFault) gives 500; otherwise
200 with the update committed. -/
def update_region (s : AppState) (code : String) (body : RegionBody)
    (lookupFault commitFault : Bool) : Response × AppState :=
  if lookupFault then
    ({ status := 404, body := .msg ("Region " ++ code ++ " not found") }, s)
  else
    match body with
    | .malformed =>
      ({ status := 500, body := .msg "Failed Marshmallow schema validation" }, s)
    | .valid p =>
      let region_update := region_schema_load p (regionByNOC s code)
      if commitFault then
        ({ status := 500, body := .msg "An Internal Server Error occurred." }, s)
      else
        ({ status := 200, body := .msg ("Region " ++ code ++ " updated.") },
         { s with regions := upsertRegion s.regions region_update })

/-- The full PATCH /regions/(noc_code) endpoint: update_region wrapped by the
token_required decorator. -/
def patch_region (s : AppState) (auth : AuthHeader) (secret : String) (now : Nat)
    (code : String) (body : RegionBody) (lookupFault commitFault : Bool) :
    Response × AppState :=
  token_required auth secret now s
    (fun _ => update_region s code body lookupFault commitFault)

/-- JSON body of a POST /register request (fields via dict.get, so absent
maps to none). -/
structure RegisterJson where
  email : Option String
  password : Option String
deriving Repr, DecidableEq

/-- POST /register (routes.py `register`): filter_by(email=...) with a null
email matches no row; an existing user gives 409 with no mutation; otherwise
the new User (next autoincrement id, hashed password) is committed for 201.
Everything in the try block is caught by `except Exception`, so a missing
email or password (null constraint / hashing error) and any injected
persistence failure (commitFault carries the underlying error text) produce
the same generic 500 whose message never includes the error. -/
def register (s : AppState) (j : RegisterJson) (commitFault : Option String) :
    Response × AppState :=
  match j.email.bind (userByEmail s) with
  | some _ =>
    ({ status := 409, body := .msg "User already exists. Please Log in." }, s)
  | none =>
    match j.email, j.password with
    | some e, some pw =>
      match commitFault with
      | some _ =>
        ({ status := 500, body := .msg "An error occurred. Please try again." }, s)
      | none =>
        ({ status := 201, body := .msg "Successfully registered." },
         { s with
            users := s.users ++
              [{ id := s.users.length + 1, email := e, password_hash := pwHash pw }] })
    | _, _ =>
      ({ status := 500, body := .msg "An error occurred. Please try again." }, s)

/-- Errors SQLAlchemy raises in the event handlers (none of which catch
anything). -/
inductive SAErr where
  | invalidRequest (attrName : String)
  | noResultFound
  | multipleResultsFound
deriving Repr, DecidableEq

/-- Modelled from the spec: the mapped column names of the Event model
(models.py is not among the sources; spec §3 gives the surrogate numeric id
plus descriptive attributes, and routes.py filters events by id in
get_event and delete_event). -/
def eventColumnNames : List String := ["id", "etype", "year"]

/-- db.select(Event).filter_by((attrName)=v): filter_by with a keyword that
is not a mapped column of Event raises InvalidRequestError at query
construction, before any row is consulted; the only mapped column the routes
filter on is the numeric id. -/
def event_filter_by (attrName : String) (v : Nat) (events : List Event) :
    Except SAErr (List Event) :=
  if attrName ∈ eventColumnNames then
    .ok (if attrName == "id" then events.filter (fun e => e.id == v) else events)
  else
    .error (.invalidRequest attrName)

/-- Result.scalar_one(): exactly one row or an error. -/
def scalar_one (l : List Event) : Except SAErr Event :=
  match l with
  | [] => .error .noResultFound
  | [e] => .ok e
  | _ => .error .multipleResultsFound

/-- Result.scalar_one_or_none(): at most one row, none being acceptable. -/
def scalar_one_or_none (l : List Event) : Except SAErr (Option Event) :=
  match l with
  | [] => .ok none
  | [e] => .ok (some e)
  | _ => .error .multipleResultsFound

/-- GET /events/(event_id) (routes.py `get_event`): filter_by(id=event_id),
scalar_one, dump; no error handling, so ORM errors propagate. -/
def get_event (s : AppState) (event_id : Nat) : Except SAErr Response := do
  let rows ← event_filter_by "id" event_id s.events
  let e ← scalar_one rows
  return { status := 200, body := .eventObj e }

/-- DELETE /events/(event_id) (routes.py `delete_event`):
filter_by(id=event_id), scalar_one, delete, commit; no error handling. -/
def delete_event (s : AppState) (event_id : Nat) :
    Except SAErr (Response × AppState) := do
  let rows ← event_filter_by "id" event_id s.events
  let e ← scalar_one rows
  return ({ status := 200, body := .msg ("Event " ++ toString event_id ++ " deleted.") },
          { s with events := s.events.eraseP (fun x => x.id == e.id) })

/-- The PATCH /events request body, mirroring RegionPatch. -/
structure EventPatch where
  etype : Option String
  year : Option Nat
deriving Repr, DecidableEq

/-- Modelled from the spec: EventSchema.load(json, instance=existing,
partial=True) (schemas.py is not among the sources), the Event counterpart
of region_schema_load. -/
def event_schema_load (p : EventPatch) (inst : Option Event) : Event :=
  match inst with
  | some e =>
    { id := e.id, etype := p.etype.getD e.etype, year := p.year.getD e.year }
  | none =>
    { id := 0, etype := p.etype.getD "", year := p.year.getD 0 }

/-- db.session.add(row); db.session.commit() for an event. -/
def upsertEvent (es : List Event) (e : Event) : List Event :=
  if es.any (fun x => x.id == e.id) then
    es.map (fun x => if x.id == e.id then e else x)
  else es ++ [e]

/-- PATCH /events/(event_id) (routes.py `event_update`): the lookup filters
Event by a keyword event_id, then scalar_one_or_none, schema load, commit;
no error handling anywhere in the handler. -/
def event_update (s : AppState) (event_id : Nat) (body : EventPatch) :
    Except SAErr (Response × AppState) := do
  let rows ← event_filter_by "event_id" event_id s.events
  let existing ← scalar_one_or_none rows
  let upd := event_schema_load body existing
  return ({ status := 200,
            body := .msg ("Event with id=" ++ toString event_id ++ " updated.") },
          { s with events := upsertEvent s.events upd })

/-! Concrete fixtures used to instantiate the theorems below. -/

/-- A registered user (mirrors the new_user fixture of the test suite). -/
def alice : User :=
  { id := 1, email := "alice@example.com", password_hash := pwHash "correct-horse" }

/-- A stored region (mirrors the new_region fixture of the test suite). -/
def demoRegion : Region := { NOC := "NEW", region := "New Region", notes := "A note" }

/-- A second stored region, untouched by the updates exercised below. -/
def otherRegion : Region := { NOC := "OTH", region := "Other", notes := "Old" }

/-- A stored event. -/
def demoEvent : Event := { id := 1, etype := "summer", year := 2012 }

/-- A small database: two regions, one event, one registered user. -/
def demoState : AppState :=
  { regions := [demoRegion, otherRegion], events := [demoEvent], users := [alice] }

/-! Helper lemmas about find?, map-replacement and eraseP. -/

/-- A serialized token is never the empty string (it starts with the fixed
base64 header). -/
theorem Token.encode_ne_empty (t : Token) : t.encode ≠ "" := by
  intro h
  have hlen := congrArg String.length h
  simp only [Token.encode, String.length_append] at hlen
  have h1 : ("eyJhbGciOiJIUzI1NiJ9." : String).length = 21 := rfl
  have h2 : ("" : String).length = 0 := rfl
  rw [h1, h2] at hlen
  omega

/-- Replacing, pointwise, every element that satisfies q by a fixed element m
that satisfies q keeps the head position of the first match, so find? returns
m whenever it returned anything before. -/
theorem find?_map_replace {α : Type} (q : α → Bool) (m : α) (hm : q m = true) :
    ∀ (l : List α) (r : α), l.find? q = some r →
      (l.map (fun x => if q x then m else x)).find? q = some m := by
  intro l
  induction l with
  | nil => intro r h; simp at h
  | cons a t ih =>
    intro r h
    by_cases ha : q a = true
    · simp only [List.map_cons, if_pos ha]
      exact List.find?_cons_of_pos _ hm
    · rw [List.find?_cons_of_neg t ha] at h
      simp only [List.map_cons, if_neg ha]
      rw [List.find?_cons_of_neg _ ha]
      exact ih r h

/-- When the NOC codes of a list of regions are pairwise distinct, erasing
the first region with a given code leaves no region with that code. -/
theorem find?_eraseP_nodup (code : String) :
    ∀ (l : List Region), (l.map Region.NOC).Nodup →
      (l.eraseP (fun r => r.NOC == code)).find? (fun r => r.NOC == code) = none := by
  intro l
  induction l with
  | nil => intro _; simp
  | cons a t ih =>
    intro hnd
    rw [List.map_cons, List.nodup_cons] at hnd
    by_cases ha : (a.NOC == code) = true
    · rw [List.eraseP_cons_of_pos (p := fun r : Region => r.NOC == code) ha]
      rw [List.find?_eq_none]
      intro x hx hqx
      apply hnd.1
      have : x.NOC = code := by simpa using hqx
      have hac : a.NOC = code := by simpa using ha
      rw [hac, ← this]
      exact List.mem_map_of_mem Region.NOC hx
    · rw [List.eraseP_cons_of_neg (p := fun r : Region => r.NOC == code) ha,
        List.find?_cons_of_neg (p := fun r : Region => r.NOC == code) _ ha]
      exact ih hnd.2

/-! # Claim C1: the login decision sequence -/

/-- Claim C1 exactly as stated: a 401 "Missing email or password" is produced
precisely when the body is absent or LACKS one of the two fields; any body
carrying both fields proceeds to the email lookup (401 on miss), then to the
password check (403 on mismatch), then to the 201 token response, in that
order. -/
def loginClaimAsStated : Prop :=
  ∀ (s : AppState) (auth : Option LoginJson) (now : Nat) (secret : String),
    (auth = none →
      login s auth now secret = { status := 401, body := .msg "Missing email or password" }) ∧
    ∀ a, auth = some a →
      ((a.email = none ∨ a.password = none) →
        login s auth now secret = { status := 401, body := .msg "Missing email or password" }) ∧
      ∀ e pw, a.email = some e → a.password = some pw →
        (userByEmail s e = none → (login s auth now secret).status = 401) ∧
        ∀ u, userByEmail s e = some u →
          (u.check_password pw = false → (login s auth now secret).status = 403) ∧
          (u.check_password pw = true →
            (login s auth now secret).status = 201 ∧
            ∃ t, (login s auth now secret).body = .token t ∧ t.encode ≠ "")

/-- Claim C1, counterexample: the claim as stated is false.  The registered user
alice together with the body (email = alice@example.com, password = "") has
both fields present and a non-matching password, so the claim requires 403;
the code treats the empty string as falsy and answers 401
"Missing email or password". -/
theorem login_claim_as_stated_false : ¬ loginClaimAsStated := by
  intro h
  have h1 := (h demoState (some { email := some "alice@example.com", password := some "" })
      0 "sk").2 { email := some "alice@example.com", password := some "" } rfl
  have h2 := (h1.2 "alice@example.com" "" rfl rfl).2 alice (by decide)
  have h3 := h2.1 (by decide)
  exact absurd h3 (by decide)

/-- Claim C1, amended: as the claim, except that a field that is present but
empty is treated the same as an absent field (Python falsiness), producing
the 401 "Missing email or password"; with both fields present and non-empty
the order of checks is exactly lookup-miss 401, then password-mismatch 403,
then 201 with a non-empty token string. -/
theorem login_decision_sequence (s : AppState) (auth : Option LoginJson)
    (now : Nat) (secret : String) :
    ((auth = none ∨ ∃ a, auth = some a ∧ (truthy a.email = false ∨ truthy a.password = false)) →
      login s auth now secret = { status := 401, body := .msg "Missing email or password" }) ∧
    (∀ a e pw, auth = some a → a.email = some e → a.password = some pw →
      e ≠ "" → pw ≠ "" →
      (userByEmail s e = none →
        login s auth now secret =
          { status := 401, body := .msg "No account for that email address. Please register." }) ∧
      ∀ u, userByEmail s e = some u →
        (u.check_password pw = false →
          login s auth now secret = { status := 403, body := .msg "Incorrect password." }) ∧
        (u.check_password pw = true →
          login s auth now secret =
            { status := 201, body := .token (Token.issue u.id now secret) } ∧
          (Token.issue u.id now secret).encode ≠ "")) := by
  constructor
  · rintro (rfl | ⟨a, rfl, hbad⟩)
    · rfl
    · rcases hbad with hb | hb <;> simp [login, hb]
  · rintro a e pw rfl he hpw hene hpwne
    constructor
    · intro hmiss
      simp [login, truthy, he, hpw, hene, hpwne, hmiss]
    · intro u hu
      constructor
      · intro hcp
        simp [login, truthy, he, hpw, hene, hpwne, hu, hcp]
      · intro hcp
        exact ⟨by simp [login, truthy, he, hpw, hene, hpwne, hu, hcp],
          Token.encode_ne_empty _⟩

/-- Claim C1, witness: the amended theorem applied to the demo database and the
correct credentials of alice yields the 201 token response. -/
theorem login_decision_sequence_witness :
    login demoState (some { email := some "alice@example.com", password := some "correct-horse" })
        7 "sk" = { status := 201, body := .token (Token.issue 1 7 "sk") } ∧
    (Token.issue 1 7 "sk").encode ≠ "" := by
  have h := (login_decision_sequence demoState
      (some { email := some "alice@example.com", password := some "correct-horse" }) 7 "sk").2
      { email := some "alice@example.com", password := some "correct-horse" }
      "alice@example.com" "correct-horse" rfl rfl rfl (by decide) (by decide)
  have h2 := (h.2 alice (by decide)).2 (by decide)
  simpa [alice] using h2

/-! # Claim C2: token contents and expiry -/

/-- Claim C2: every token issued by a successful login carries subject = the
numeric id of the user, issued-at = the request clock, expiry = issued-at
plus exactly 300 seconds, and the out-of-band header tagging the user id;
validating the token at any time at or after its expiry (in particular at
issued-at + 5 min + 1 s) rejects it as expired. -/
theorem login_token_contents (s : AppState) (a : LoginJson) (e pw : String)
    (u : User) (now : Nat) (secret : String)
    (he : a.email = some e) (hpw : a.password = some pw)
    (hene : e ≠ "") (hpwne : pw ≠ "")
    (hu : userByEmail s e = some u) (hcp : u.check_password pw = true) :
    login s (some a) now secret
      = { status := 201, body := .token (Token.issue u.id now secret) } ∧
    (Token.issue u.id now secret).sub = u.id ∧
    (Token.issue u.id now secret).iat = now ∧
    (Token.issue u.id now secret).exp = (Token.issue u.id now secret).iat + 300 ∧
    (Token.issue u.id now secret).header_user_id = u.id ∧
    (∀ v, (Token.issue u.id now secret).exp ≤ v →
      token_valid (Token.issue u.id now secret) secret v = false) ∧
    token_valid (Token.issue u.id now secret) secret (now + 300 + 1) = false := by
  refine ⟨by simp [login, truthy, he, hpw, hene, hpwne, hu, hcp],
    rfl, rfl, rfl, rfl, ?_, ?_⟩
  · intro v hv
    simp only [Token.issue] at hv ⊢
    simp [token_valid]
    omega
  · simp [token_valid, Token.issue]

/-- Claim C2, witness: the login of alice at clock 100 issues the token with
subject 1, issued-at 100, expiry 400, and validating it at 401 fails. -/
theorem login_token_contents_witness :
    login demoState
        (some { email := some "alice@example.com", password := some "correct-horse" })
        100 "sk"
      = { status := 201, body := .token (Token.issue 1 100 "sk") } ∧
    token_valid (Token.issue 1 100 "sk") "sk" 401 = false := by
  have h := login_token_contents demoState
      { email := some "alice@example.com", password := some "correct-horse" }
      "alice@example.com" "correct-horse" alice 100 "sk"
      rfl rfl (by decide) (by decide) (by decide) (by decide)
  exact ⟨by simpa [alice] using h.1, by simpa [alice] using h.2.2.2.2.2.2⟩

/-! # Claim C3: unauthenticated region update leaves the store unchanged -/

/-- Claim C3: a PATCH region request with no Authorization header, an
undecodable header, or an invalid/expired token gets a 401 response and
leaves the application state (in particular the stored record for that
code) completely unchanged. -/
theorem patch_region_rejects_unauthenticated (s : AppState) (auth : AuthHeader)
    (secret : String) (now : Nat) (code : String) (body : RegionBody)
    (lf cf : Bool)
    (h : auth = .missing ∨ (∃ raw, auth = .garbled raw) ∨
         ∃ t, auth = .tok t ∧ token_valid t secret now = false) :
    (patch_region s auth secret now code body lf cf).fst.status = 401 ∧
    (patch_region s auth secret now code body lf cf).snd = s ∧
    regionByNOC (patch_region s auth secret now code body lf cf).snd code
      = regionByNOC s code := by
  rcases h with rfl | ⟨raw, rfl⟩ | ⟨t, rfl, hv⟩
  · exact ⟨rfl, rfl, rfl⟩
  · exact ⟨rfl, rfl, rfl⟩
  · refine ⟨?_, ?_, ?_⟩ <;> simp [patch_region, token_required, hv]

/-- Claim C3, witness: the header-less PATCH of region NEW on the demo
database answers 401 and changes nothing. -/
theorem patch_region_rejects_unauthenticated_witness :
    (patch_region demoState .missing "sk" 0 "NEW"
        (.valid { region := none, notes := some "An updated note" }) false false).fst.status
      = 401 ∧
    (patch_region demoState .missing "sk" 0 "NEW"
        (.valid { region := none, notes := some "An updated note" }) false false).snd
      = demoState ∧
    regionByNOC (patch_region demoState .missing "sk" 0 "NEW"
        (.valid { region := none, notes := some "An updated note" }) false false).snd "NEW"
      = regionByNOC demoState "NEW" :=
  patch_region_rejects_unauthenticated demoState .missing "sk" 0 "NEW"
    (.valid { region := none, notes := some "An updated note" }) false false
    (Or.inl rfl)

/-! # Claim C9: login distinguishes unknown emails from wrong passwords -/

/-- Claim C9: with both fields non-empty, a login for an email with no
account answers 401 with the distinctive no-account message, and that answer
is the same whatever password was offered (the password is never consulted);
a login for a registered email never answers 401 (it answers 403 or 201), so
the pair of responses reveals whether the account exists. -/
theorem login_distinguishes_unknown_email (s : AppState) (e pw : String)
    (now : Nat) (secret : String) (hene : e ≠ "") (hpwne : pw ≠ "") :
    (userByEmail s e = none →
      login s (some { email := some e, password := some pw }) now secret
        = { status := 401,
            body := .msg "No account for that email address. Please register." } ∧
      ∀ pw2, pw2 ≠ "" →
        login s (some { email := some e, password := some pw2 }) now secret
          = login s (some { email := some e, password := some pw }) now secret) ∧
    (∀ u, userByEmail s e = some u →
      (login s (some { email := some e, password := some pw }) now secret).status
        ≠ 401) := by
  constructor
  · intro hmiss
    constructor
    · simp [login, truthy, hene, hpwne, hmiss]
    · intro pw2 h2
      simp [login, truthy, hene, hpwne, h2, hmiss]
  · intro u hu
    by_cases hcp : u.check_password pw = true
    · simp [login, truthy, hene, hpwne, hu, hcp]
    · rw [Bool.not_eq_true] at hcp
      simp [login, truthy, hene, hpwne, hu, hcp]

/-- Claim C9, witness: on the demo database, the unknown email bob gets the
no-account 401 answer. -/
theorem login_distinguishes_unknown_email_witness :
    login demoState (some { email := some "bob@example.com", password := some "x" }) 0 "sk"
      = { status := 401,
          body := .msg "No account for that email address. Please register." } :=
  ((login_distinguishes_unknown_email demoState "bob@example.com" "x" 0 "sk"
      (by decide) (by decide)).1 (by decide)).1

/-! # Region update helpers shared by the PATCH claims -/

/-- With a valid unexpired token, no faults, and an existing target row, the
PATCH region endpoint returns the 200 confirmation and commits the merged
record. -/
theorem patch_region_success_state (s : AppState) (t : Token) (secret : String)
    (now : Nat) (code : String) (p : RegionPatch) (r : Region)
    (hkey : t.key = secret) (hexp : now < t.exp)
    (hr : regionByNOC s code = some r) :
    patch_region s (.tok t) secret now code (.valid p) false false
      = ({ status := 200, body := .msg ("Region " ++ code ++ " updated.") },
         { s with regions := upsertRegion s.regions (region_schema_load p (some r)) }) := by
  have hvalid : token_valid t secret now = true := by
    simp [token_valid, hkey, hexp]
  simp [patch_region, token_required, hvalid, update_region, hr]

/-- After committing the record merged into an existing row, the lookup by
the same code retrieves exactly the merged record. -/
theorem update_region_commit_find (s : AppState) (code : String) (p : RegionPatch)
    (r : Region) (hr : regionByNOC s code = some r) :
    regionByNOC
      { s with regions := upsertRegion s.regions (region_schema_load p (some r)) } code
      = some (region_schema_load p (some r)) := by
  have hr' : s.regions.find? (fun x => x.NOC == code) = some r := hr
  have hrceq : r.NOC = code := by simpa using List.find?_some hr'
  have hmNOC : (region_schema_load p (some r)).NOC = code := by
    simp [region_schema_load, hrceq]
  have hany : s.regions.any
      (fun x => x.NOC == (region_schema_load p (some r)).NOC) = true := by
    rw [List.any_eq_true]
    exact ⟨r, List.mem_of_find?_eq_some hr', by simp [hmNOC, hrceq]⟩
  have hq : ((fun x : Region => x.NOC == code) (region_schema_load p (some r))) = true := by
    simpa using hmNOC
  have hmain := find?_map_replace (fun x : Region => x.NOC == code)
      (region_schema_load p (some r)) hq s.regions r hr'
  show (upsertRegion s.regions (region_schema_load p (some r))).find?
      (fun x => x.NOC == code) = some (region_schema_load p (some r))
  rw [upsertRegion, if_pos hany]
  simp only [hmNOC]
  exact hmain

/-! # Claim C4: authorized region update is visible in a subsequent GET -/

/-- Claim C4: a PATCH region request carrying a valid unexpired token of a
registered user, on an existing code with a schema-valid body and no store
fault, answers 200, and a subsequent GET of the same code returns 200 with a
record reflecting every field supplied in the body. -/
theorem patch_region_authorized_roundtrip (s : AppState) (t : Token)
    (secret : String) (now : Nat) (code : String) (p : RegionPatch)
    (r : Region) (u : User)
    (hkey : t.key = secret) (hexp : now < t.exp)
    (hmem : u ∈ s.users) (hsub : u.id = t.sub)
    (hr : regionByNOC s code = some r) :
    (patch_region s (.tok t) secret now code (.valid p) false false).fst
      = { status := 200, body := .msg ("Region " ++ code ++ " updated.") } ∧
    ∃ g, get_region
        (patch_region s (.tok t) secret now code (.valid p) false false).snd code
        = { status := 200, body := .regionObj g } ∧
      (∀ v, p.region = some v → g.region = v) ∧
      (∀ v, p.notes = some v → g.notes = v) := by
  have hst := patch_region_success_state s t secret now code p r hkey hexp hr
  refine ⟨by rw [hst], region_schema_load p (some r), ?_, ?_, ?_⟩
  · rw [hst]
    simp [get_region, update_region_commit_find s code p r hr]
  · intro v hv
    simp [region_schema_load, hv]
  · intro v hv
    simp [region_schema_load, hv]

/-- Claim C4, witness: patching the notes of region NEW with the token of
alice makes the new notes visible in the subsequent GET. -/
theorem patch_region_authorized_roundtrip_witness :
    (patch_region demoState (.tok (Token.issue 1 0 "sk")) "sk" 0 "NEW"
        (.valid { region := none, notes := some "An updated note" }) false false).fst
      = { status := 200, body := .msg ("Region " ++ "NEW" ++ " updated.") } ∧
    ∃ g, get_region
        (patch_region demoState (.tok (Token.issue 1 0 "sk")) "sk" 0 "NEW"
          (.valid { region := none, notes := some "An updated note" }) false false).snd "NEW"
        = { status := 200, body := .regionObj g } ∧
      (∀ v, ({ region := none, notes := some "An updated note" } : RegionPatch).region
          = some v → g.region = v) ∧
      (∀ v, ({ region := none, notes := some "An updated note" } : RegionPatch).notes
          = some v → g.notes = v) :=
  patch_region_authorized_roundtrip demoState (Token.issue 1 0 "sk") "sk" 0 "NEW"
    { region := none, notes := some "An updated note" } demoRegion alice
    rfl (by decide) (by decide) rfl (by decide)

/-! # Claim C6: missing target row is not rejected with 404 -/

/-- Claim C6: an authenticated PATCH region request whose code matches no
stored row is NOT answered with a NotFound response; the handler carries on
into the schema merge with a null target (the committed state is the merge
of the body into the null instance). -/
theorem patch_region_null_target (s : AppState) (t : Token) (secret : String)
    (now : Nat) (code : String) (p : RegionPatch)
    (hkey : t.key = secret) (hexp : now < t.exp)
    (habs : regionByNOC s code = none) :
    (patch_region s (.tok t) secret now code (.valid p) false false).fst.status ≠ 404 ∧
    (patch_region s (.tok t) secret now code (.valid p) false false).snd
      = { s with regions := upsertRegion s.regions (region_schema_load p none) } := by
  have hvalid : token_valid t secret now = true := by
    simp [token_valid, hkey, hexp]
  constructor
  · simp [patch_region, token_required, hvalid, update_region, habs]
  · simp [patch_region, token_required, hvalid, update_region, habs]

/-- Claim C6, witness: patching the absent code XXX with a valid token is not
answered 404; the merge of the body into the null instance is committed. -/
theorem patch_region_null_target_witness :
    (patch_region demoState (.tok (Token.issue 1 0 "sk")) "sk" 0 "XXX"
        (.valid { region := none, notes := some "An updated note" }) false false).fst.status
      ≠ 404 ∧
    (patch_region demoState (.tok (Token.issue 1 0 "sk")) "sk" 0 "XXX"
        (.valid { region := none, notes := some "An updated note" }) false false).snd
      = { demoState with
          regions := upsertRegion demoState.regions
            (region_schema_load { region := none, notes := some "An updated note" } none) } :=
  patch_region_null_target demoState (Token.issue 1 0 "sk") "sk" 0 "XXX"
    { region := none, notes := some "An updated note" }
    rfl (by decide) (by decide)

/-! # Claim C7: the update changes exactly the supplied fields -/

/-- Claim C7: after a successful authenticated PATCH on an existing region,
the stored record for that code is the merge of the body into the old
record: the key is unchanged, each field absent from the body keeps its
previous value, and each field present in the body takes the supplied
value. -/
theorem patch_region_exact_fields (s : AppState) (t : Token) (secret : String)
    (now : Nat) (code : String) (p : RegionPatch) (r : Region)
    (hkey : t.key = secret) (hexp : now < t.exp)
    (hr : regionByNOC s code = some r) :
    regionByNOC
        (patch_region s (.tok t) secret now code (.valid p) false false).snd code
      = some (region_schema_load p (some r)) ∧
    (region_schema_load p (some r)).NOC = r.NOC ∧
    (p.region = none → (region_schema_load p (some r)).region = r.region) ∧
    (p.notes = none → (region_schema_load p (some r)).notes = r.notes) ∧
    (∀ v, p.region = some v → (region_schema_load p (some r)).region = v) ∧
    (∀ v, p.notes = some v → (region_schema_load p (some r)).notes = v) := by
  have hst := patch_region_success_state s t secret now code p r hkey hexp hr
  refine ⟨?_, rfl, ?_, ?_, ?_, ?_⟩
  · rw [hst]
    exact update_region_commit_find s code p r hr
  · intro hv
    simp [region_schema_load, hv]
  · intro hv
    simp [region_schema_load, hv]
  · intro v hv
    simp [region_schema_load, hv]
  · intro v hv
    simp [region_schema_load, hv]

/-- Claim C7, witness: patching only the notes of region NEW keeps its key
and its region name and stores the new notes. -/
theorem patch_region_exact_fields_witness :
    regionByNOC
        (patch_region demoState (.tok (Token.issue 1 0 "sk")) "sk" 0 "NEW"
          (.valid { region := none, notes := some "An updated note" }) false false).snd "NEW"
      = some (region_schema_load
          { region := none, notes := some "An updated note" } (some demoRegion)) ∧
    (region_schema_load { region := none, notes := some "An updated note" }
        (some demoRegion)).NOC = demoRegion.NOC ∧
    (region_schema_load { region := none, notes := some "An updated note" }
        (some demoRegion)).region = demoRegion.region ∧
    (region_schema_load { region := none, notes := some "An updated note" }
        (some demoRegion)).notes = "An updated note" := by
  have h := patch_region_exact_fields demoState (Token.issue 1 0 "sk") "sk" 0 "NEW"
    { region := none, notes := some "An updated note" } demoRegion
    rfl (by decide) (by decide)
  exact ⟨h.1, h.2.1, h.2.2.1 rfl, h.2.2.2.2.2 "An updated note" rfl⟩

/-! # Claim C8: delete then get is not-found -/

/-- Claim C8: whenever a DELETE of a region code answers with the success
message (which only the 200 path produces), a subsequent GET of the same
code answers 404 Region not found.  The NOC-uniqueness invariant of the
store (spec §3) is assumed. -/
theorem delete_then_get_not_found (s : AppState) (code : String) (cf : Bool)
    (hnd : (s.regions.map Region.NOC).Nodup)
    (hmsg : (delete_region s code cf).fst.body
      = .msg ("Region " ++ code ++ " deleted.")) :
    get_region (delete_region s code cf).snd code
      = { status := 404, body := .msg "Region not found" } := by
  have hlen_del : (" deleted." : String).length = 9 := rfl
  have hlen_nf : (" not found" : String).length = 10 := rfl
  cases h : regionByNOC s code with
  | none =>
    exfalso
    simp [delete_region, h] at hmsg
    have hlen := congrArg String.length hmsg
    simp only [String.length_append, hlen_del, hlen_nf] at hlen
    omega
  | some r =>
    cases cf with
    | true =>
      exfalso
      simp [delete_region, h] at hmsg
      have hlen := congrArg String.length hmsg
      simp only [String.length_append, hlen_del, hlen_nf] at hlen
      omega
    | false =>
      have h' : s.regions.find? (fun x => x.NOC == code) = some r := h
      simp [get_region, regionByNOC, delete_region, h',
        find?_eraseP_nodup code s.regions hnd]

/-- Claim C8, witness: deleting region NEW from the demo database and then
fetching NEW answers 404. -/
theorem delete_then_get_not_found_witness :
    get_region (delete_region demoState "NEW" false).snd "NEW"
      = { status := 404, body := .msg "Region not found" } :=
  delete_then_get_not_found demoState "NEW" false (by decide) (by decide)

/-! # Claim C5: registration conflict, creation, and generic failure -/

/-- Claim C5: a registration for an email that already has a user answers
409 and never mutates the store (whatever the persistence outcome would have
been); for a fresh email without a persistence fault, the user with that
email and the hashed password is appended with the next id and the answer is
201; any persistence failure during creation answers a generic 500 whose
response is the same constant message whatever the underlying error was, and
leaves the store unchanged. -/
theorem register_flow (s : AppState) (j : RegisterJson) (e pw : String)
    (he : j.email = some e) (hpw : j.password = some pw) :
    ((∃ u, userByEmail s e = some u) → ∀ fault,
      register s j fault
        = ({ status := 409, body := .msg "User already exists. Please Log in." }, s)) ∧
    (userByEmail s e = none →
      register s j none
        = ({ status := 201, body := .msg "Successfully registered." },
           { s with users := s.users ++
              [{ id := s.users.length + 1, email := e, password_hash := pwHash pw }] })) ∧
    (userByEmail s e = none → ∀ err,
      register s j (some err)
        = ({ status := 500, body := .msg "An error occurred. Please try again." }, s)) := by
  refine ⟨?_, ?_, ?_⟩
  · rintro ⟨u, hu⟩ fault
    simp [register, he, hpw, hu]
  · intro hm
    simp [register, he, hpw, hm]
  · intro hm err
    simp [register, he, hpw, hm]

/-- Claim C5, witness: registering the already-taken email of alice answers
409 and leaves the demo database unchanged. -/
theorem register_flow_witness :
    register demoState { email := some "alice@example.com", password := some "pw2" } none
      = ({ status := 409, body := .msg "User already exists. Please Log in." },
         demoState) :=
  (register_flow demoState { email := some "alice@example.com", password := some "pw2" }
      "alice@example.com" "pw2" rfl rfl).1 ⟨alice, by decide⟩ none

/-! # Claim C10: the event update handler always raises -/

/-- Claim C10: the PATCH event handler filters Event by a keyword event_id,
which is not a mapped column, so the lookup raises InvalidRequestError for
every state, id and body and the handler never reaches its success response;
filtering by the keyword id, as every other event handler does, succeeds. -/
theorem event_update_always_raises :
    (∀ (s : AppState) (eid : Nat) (body : EventPatch),
      event_update s eid body = .error (.invalidRequest "event_id")) ∧
    (∀ (v : Nat) (es : List Event),
      event_filter_by "id" v es = .ok (es.filter (fun e => e.id == v))) := by
  constructor
  · intro s eid body
    simp only [event_update, event_filter_by]
    rw [if_neg (by decide)]
    rfl
  · intro v es
    simp only [event_filter_by]
    rw [if_pos (by decide)]
    simp

end Paralympics
